import Mathlib

/-!
Shallow embedding of the leekduck-crawler pipeline
(`src/scrapers/pokemon_scraper.py`, `src/scrapers/pokemon_detail_scraper.py`,
`src/scrap_pokemon_main.py`, `src/upload_firestore.py`).

Python strings are modelled by `String`, and the Python string operations the
code uses (`str.lower`, `str.startswith`, `str.split`, `str.strip`,
`str.replace`, `sep.join`, `int(...)`) are re-implemented below over
`String.data` so that every definition reduces inside the kernel.  The
BeautifulSoup DOM is modelled by the rose tree `Node`; the CSS-selector
subset actually used by the scrapers (simple tag/class selectors, the
descendant combinator, and the child combinator) is implemented directly
on that tree, as are `get_text(strip=True)`, `Tag.string`,
`find(name, string=...)` (which also records the parent, for `.parent`) and
`find_next(name)`.  bs4 `Tag.__bool__` is constantly `True`, so Python
`tag_a or tag_b` on optional tags is `Option.orElse`.
-/

/-- Python `s.lower()` (ASCII case folding, which covers the scraped text). -/
def pyLower (s : String) : String := ⟨s.data.map Char.toLower⟩

/-- Python `s.startswith(pre)`. -/
def pyStartsWith (s pre : String) : Bool := pre.data.isPrefixOf s.data

/-- Substring test used for Python `sub in s`. -/
def listInfix (needle : List Char) : List Char → Bool
  | [] => needle.isEmpty
  | c :: rest => needle.isPrefixOf (c :: rest) || listInfix needle rest

/-- Python `sub in s` on strings. -/
def pyContains (sub s : String) : Bool := listInfix sub.data s.data

/-- Python `s.strip()` restricted to ASCII whitespace. -/
def pyStrip (s : String) : String :=
  ⟨((s.data.dropWhile Char.isWhitespace).reverse.dropWhile Char.isWhitespace).reverse⟩

/-- Helper for `pySplitWs`: split a character list on whitespace runs. -/
def splitWsAux : List Char → List Char → List String
  | [], acc => if acc.isEmpty then [] else [⟨acc.reverse⟩]
  | c :: rest, acc =>
    if c.isWhitespace then
      (if acc.isEmpty then [] else [(⟨acc.reverse⟩ : String)]) ++ splitWsAux rest []
    else splitWsAux rest (c :: acc)

/-- Python `s.split()` (no argument): split on whitespace runs, no empty parts. -/
def pySplitWs (s : String) : List String := splitWsAux s.data []

/-- Helper for `pySplitSep`, structurally recursive on fuel (`fuel ≥ length`). -/
def splitSepAux (sep : List Char) : Nat → List Char → List Char → List (List Char)
  | 0, rest, acc => [acc.reverse ++ rest]
  | _ + 1, [], acc => [acc.reverse]
  | fuel + 1, c :: rest, acc =>
    if sep.isPrefixOf (c :: rest) then
      acc.reverse :: splitSepAux sep fuel ((c :: rest).drop sep.length) []
    else splitSepAux sep fuel rest (c :: acc)

/-- Python `s.split(sep)` for a non-empty separator `sep`. -/
def pySplitSep (s sep : String) : List String :=
  (splitSepAux sep.data (s.data.length + 1) s.data []).map fun cs => (⟨cs⟩ : String)

/-- Python `sep.join(parts)`. -/
def pyJoin (sep : String) : List String → String
  | [] => ""
  | [s] => s
  | s :: rest => s ++ sep ++ pyJoin sep rest

/-- Python `s.replace(old, "")` for the single-character pattern `"#"`. -/
def pyRemoveHash (s : String) : String := ⟨s.data.filter (fun c => c ≠ '#')⟩

/-- Python `s.rstrip("/")`. -/
def pyRstripSlash (s : String) : String :=
  ⟨(s.data.reverse.dropWhile (fun c => c = '/')).reverse⟩

/-- Python `s.split("?", 1)[0]`: everything before the first `?`. -/
def stripQuery (s : String) : String := ⟨s.data.takeWhile (fun c => c ≠ '?')⟩

/-- Digit-run tail for `pyIntParse`: previous character was a digit; a single
underscore may separate digit groups (Python `int` grammar). -/
def pyDigitsTail : List Char → Bool
  | [] => true
  | '_' :: rest =>
    match rest with
    | c :: rest' => c.isDigit && pyDigitsTail rest'
    | [] => false
  | c :: rest => c.isDigit && pyDigitsTail rest

/-- Non-empty digit run (underscores allowed between digits). -/
def pyDigitsOk : List Char → Bool
  | [] => false
  | c :: rest => c.isDigit && pyDigitsTail rest

/-- Numeric value of a digit run, ignoring underscores. -/
def pyDigitsVal (l : List Char) : Nat :=
  l.foldl (fun acc c => if c = '_' then acc else acc * 10 + (c.toNat - '0'.toNat)) 0

/-- Python `int(s)` on a decimal string: optional surrounding whitespace,
optional sign, ASCII digits with single underscores between digit groups;
`none` models the `ValueError`. -/
def pyIntParse (s : String) : Option Int :=
  let cs := ((s.data.dropWhile Char.isWhitespace).reverse.dropWhile Char.isWhitespace).reverse
  match cs with
  | '+' :: rest => if pyDigitsOk rest then some (pyDigitsVal rest : Int) else none
  | '-' :: rest => if pyDigitsOk rest then some (-(pyDigitsVal rest : Int)) else none
  | rest => if pyDigitsOk rest then some (pyDigitsVal rest : Int) else none

/-! ## The DOM model -/

/-- A rendered-DOM node: either a text node or an element with a tag name,
a class list, an attribute list and children. -/
inductive Node where
  | text : String → Node
  | elem : (tag : String) → (classes : List String) → (attrs : List (String × String)) →
      (children : List Node) → Node

/-- Children of a node (text nodes have none). -/
def Node.children : Node → List Node
  | .text _ => []
  | .elem _ _ _ ch => ch

/-- Attribute lookup, bs4 `tag.get(key)`. -/
def Node.attr : Node → String → Option String
  | .text _, _ => none
  | .elem _ _ attrs _, k => attrs.lookup k

/-- A simple CSS selector: optional tag name plus required classes. -/
structure Sel where
  tag : Option String
  classes : List String

/-- Does a node match a simple selector? -/
def Sel.matches (s : Sel) : Node → Bool
  | .text _ => false
  | .elem t c _ _ =>
    (match s.tag with | none => true | some tg => tg == t) &&
      s.classes.all (fun cl => c.contains cl)

mutual
/-- Pre-order matches of a simple selector inside a node (the node itself
excluded), bs4 `el.select("sel")`. -/
def Node.select : Node → Sel → List Node
  | .text _, _ => []
  | .elem _ _ _ ch, s => selectL s ch

/-- Pre-order matches of a simple selector in a forest. -/
def selectL (s : Sel) : List Node → List Node
  | [] => []
  | c :: rest => (if s.matches c then [c] else []) ++ c.select s ++ selectL s rest
end

/-- bs4 `el.select_one("sel")`. -/
def Node.selectOne (n : Node) (s : Sel) : Option Node := (n.select s).head?

mutual
/-- Descendant-combinator search inside one node; the flag says whether some
ancestor (the node included) matched `s1`. -/
def selectDescN (s1 s2 : Sel) : Bool → Node → List Node
  | _, .text _ => []
  | u, .elem _ _ _ ch => selectDescL s1 s2 u ch

/-- Matches of `s1 s2` (descendant combinator) in a forest; the flag says
whether some ancestor of the current forest already matched `s1`. -/
def selectDescL (s1 s2 : Sel) : Bool → List Node → List Node
  | _, [] => []
  | u, c :: rest =>
    (if u && s2.matches c then [c] else []) ++
      selectDescN s1 s2 (u || s1.matches c) c ++ selectDescL s1 s2 u rest
end

/-- bs4 `el.select("s1 s2")` (descendant combinator; the scope element itself
counts as a possible `s1` ancestor). -/
def Node.selectDesc (n : Node) (s1 s2 : Sel) : List Node :=
  selectDescL s1 s2 (s1.matches n) n.children

mutual
/-- Child-combinator search inside one node; the flag says whether the node
itself matched `s1`. -/
def selectChildN (s1 s2 : Sel) : Bool → Node → List Node
  | _, .text _ => []
  | u, .elem _ _ _ ch => selectChildL s1 s2 u ch

/-- Matches of `s1 > s2` (child combinator) in a forest; the flag says
whether the parent of the current forest matched `s1`. -/
def selectChildL (s1 s2 : Sel) : Bool → List Node → List Node
  | _, [] => []
  | u, c :: rest =>
    (if u && s2.matches c then [c] else []) ++
      selectChildN s1 s2 (s1.matches c) c ++ selectChildL s1 s2 u rest
end

/-- bs4 `el.select("s1 > s2")` (child combinator). -/
def Node.selectChild (n : Node) (s1 s2 : Sel) : List Node :=
  selectChildL s1 s2 (s1.matches n) n.children

mutual
/-- All text pieces of a node in document order. -/
def Node.texts : Node → List String
  | .text s => [s]
  | .elem _ _ _ ch => textsL ch

/-- All text pieces of a forest in document order. -/
def textsL : List Node → List String
  | [] => []
  | c :: rest => c.texts ++ textsL rest
end

/-- bs4 `el.get_text(strip=True)`: strip each piece and concatenate. -/
def getTextStrip (n : Node) : String := pyJoin "" (n.texts.map pyStrip)

/-- bs4 `el.get_text(sep, strip=True)`: strip each piece, drop empties,
join with `sep`. -/
def getTextSep (sep : String) (n : Node) : String :=
  pyJoin sep ((n.texts.map pyStrip).filter (fun s => s ≠ ""))

/-- bs4 `Tag.string`: the unique string below the node, when it is unique. -/
def Node.string? : Node → Option String
  | .text s => some s
  | .elem _ _ _ [c] => c.string?
  | .elem _ _ _ _ => none

/-- Does a node carry the given tag name? -/
def Node.hasTag : Node → String → Bool
  | .text _, _ => false
  | .elem t _ _ _, tg => t == tg

mutual
/-- Search for a `find(tagName, string=pred)` match inside one node, the
node acting as parent of its children. -/
def findTagStringN (tg : String) (pred : String → Bool) : Node → Option (Node × Node)
  | .text _ => none
  | .elem t cs as ch => findTagStringL tg pred (.elem t cs as ch) ch

/-- bs4 `root.find(tagName, string=pred)` returning `(parent, match)`:
first pre-order element with the tag name whose `Tag.string` satisfies
`pred`, paired with its parent. -/
def findTagStringL (tg : String) (pred : String → Bool) (parent : Node) :
    List Node → Option (Node × Node)
  | [] => none
  | c :: rest =>
    if c.hasTag tg && (match c.string? with | some s => pred s | none => false) then
      some (parent, c)
    else
      match findTagStringN tg pred c with
      | some r => some r
      | none => findTagStringL tg pred parent rest
end

/-- bs4 `soup.find(tagName, string=pred)` with the soup itself as top-level
parent. -/
def Node.findTagString (doc : Node) (tg : String) (pred : String → Bool) :
    Option (Node × Node) :=
  findTagStringL tg pred doc doc.children

/-- Result of `found_tag.find_next("div")` from a `find` for a heading:
either the heading is absent, or it is present but no element follows it
(bs4 returns `None`, and the caller's `.select` raises), or the next
element is found. -/
inductive AfterHeading where
  | noHeading : AfterHeading
  | noContainer : AfterHeading
  | container : Node → AfterHeading

mutual
/-- `find(ph).find_next(pd)` search inside one node with a given flag. -/
def findAfterN (ph pd : Node → Bool) : Bool → Node → Bool × Option Node
  | found, .text _ => (found, none)
  | found, .elem _ _ _ ch => findAfterL ph pd found ch

/-- Traversal for `find(ph).find_next(pd)`: the flag records whether the
heading has been passed; returns the updated flag and the first `pd`-node
strictly after the first `ph`-node in pre-order. -/
def findAfterL (ph pd : Node → Bool) : Bool → List Node → Bool × Option Node
  | found, [] => (found, none)
  | found, c :: rest =>
    if found && pd c then (true, some c)
    else
      match findAfterN ph pd (found || ph c) c with
      | (f2, some d) => (f2, some d)
      | (f2, none) => findAfterL ph pd f2 rest
end

/-- bs4 `soup.find("h2", string=pred).find_next("div")` with the three
observable outcomes. -/
def findHeadingContainer (ph : Node → Bool) (doc : Node) : AfterHeading :=
  match findAfterL ph (fun n => n.hasTag "div") false doc.children with
  | (false, _) => .noHeading
  | (true, some d) => .container d
  | (true, none) => .noContainer

/-! ## `src/scrapers/pokemon_scraper.py` — PokebaseScraper -/

namespace PokebaseScraper

/-- One Playwright attempt of `_fetch_html` as seen from outside: either an
exception ends the attempt after some pages were captured and appended, or
the attempt completes having captured its pages 1..N. -/
inductive ListAttempt where
  | crash : (captured : List String) → ListAttempt
  | success : (pages : List String) → ListAttempt

/-- The page-boundary marker used when saving the snapshot
(`"\n<!--PAGE_BREAK-->\n".join(all_pages_html)`). -/
def pageBreakJoin : String := "\n<!--PAGE_BREAK-->\n"

/-- The marker `parse` splits the merged document on. -/
def pageBreak : String := "<!--PAGE_BREAK-->"

/-- `PokebaseScraper._fetch_html` (lines 36–100): the attempt loop with the
accumulator `all_pages_html` initialised once, before the loop.  Each list
entry is one attempt (the list's length is the retry budget); a crashed
attempt appends the pages it captured and continues, a successful attempt
appends its pages and returns `(snapshot, merged)` where the snapshot joins
the accumulator with the page-break marker and the merged document — the
one handed to `parse` — joins it with `"\n"` only. -/
def fetchHtml : List ListAttempt → (acc : List String) → Option (String × String)
  | [], _ => none
  | .crash ps :: rest, acc => fetchHtml rest (acc ++ ps)
  | .success ps :: _, acc =>
    let all := acc ++ ps
    some (pyJoin pageBreakJoin all, pyJoin "\n" all)

/-- The token immediately after the first `"of"` token:
`parts.index("of")` followed by `parts[idx + 1]`, with `none` both when
`"of"` is absent and when it is the last token (the `IndexError` is caught
by the bare `except`). -/
def afterOf : List String → Option String
  | [] => none
  | t :: rest => if t = "of" then rest.head? else afterOf rest

/-- `PokebaseScraper._detect_total_pages` on the text of the pagination
control: tokenize on whitespace, take the token after the literal token
`"of"`, parse it with Python `int`, defaulting to 1 on any failure
(lines 110–120). -/
def detectTotalPagesText (text : String) : Int :=
  match afterOf (pySplitWs text) with
  | some tok =>
    match pyIntParse tok with
    | some n => n
    | none => 1
  | none => 1

/-- The pagination control's selector `div.flex.items-center.gap-1`. -/
def barSel : Sel := ⟨some "div", ["flex", "items-center", "gap-1"]⟩

/-- `PokebaseScraper._detect_total_pages` (lines 105–120): absent control
defaults to 1, otherwise parse the control's `get_text(" ", strip=True)`. -/
def detectTotalPages (doc : Node) : Int :=
  match doc.selectOne barSel with
  | none => 1
  | some bar => detectTotalPagesText (getTextSep " " bar)

/-- One listing row of `parse` (lines 172–186).  `def` is written `«def»`
because it is a Lean keyword. -/
structure CatalogRecord where
  name : Option String
  url : Option String
  img : Option String
  lvl50 : Option String
  gl : Option String
  ul : Option String
  ml : Option String
  tier : Option String
  atk : Option String
  «def» : Option String
  sta : Option String
deriving DecidableEq, Repr

/-- The fixed site origin prefixed to relative hrefs (line 158). -/
def siteOrigin : String := "https://pokebase.app"

/-- `span.table-cell`. -/
def cellSel : Sel := ⟨some "span", ["table-cell"]⟩

/-- Bare `a` selector. -/
def aSel : Sel := ⟨some "a", []⟩

/-- Bare `img` selector. -/
def imgSel : Sel := ⟨some "img", []⟩

/-- Positional metric cell accessor: the local `get(i)` of `parse`
(lines 167–170). -/
def cellText (cells : List Node) (i : Nat) : Option String :=
  match cells.get? i with
  | some c => some (getTextStrip c)
  | none => none

/-- Per-row extraction of `parse` (lines 139–186).  `none` is a skipped row
(no cells, or no anchor in the first cell); no operation in the row body can
raise, so the surrounding `try`/`except` never fires in the model.
`name_el` follows `select_one(..) or select_one(..)` — bs4 tags are always
truthy, so this is `Option.orElse`.  A missing `href` gives a null `url`;
an href not starting with `"http"` (and non-empty, since `if url` re-checks
truthiness) is prefixed with the site origin.  A missing or empty `src`
gives a null `img`, otherwise the query string is stripped. -/
def parseRow (row : Node) : Option CatalogRecord :=
  let cells := row.select cellSel
  match cells.head? with
  | none => none
  | some first =>
    match first.selectOne aSel with
    | none => none
    | some a =>
      let name_el :=
        (a.selectDesc ⟨some "span", ["font-semibold"]⟩ ⟨some "div", ["truncate"]⟩).head? <|>
          a.selectOne ⟨some "span", ["font-semibold"]⟩
      let name := name_el.map getTextStrip
      let url := (a.attr "href").map fun u =>
        if u ≠ "" && !pyStartsWith u "http" then siteOrigin ++ u else u
      let img := match (a.selectOne imgSel).bind (fun i => i.attr "src") with
        | some raw => if raw = "" then none else some (stripQuery raw)
        | none => none
      some
        { name := name, url := url, img := img
          lvl50 := cellText cells 1, gl := cellText cells 2, ul := cellText cells 3
          ml := cellText cells 4, tier := cellText cells 5, atk := cellText cells 6
          «def» := cellText cells 7, sta := cellText cells 8 }

/-- Rows of one page document: `div.table-row-group > div.table-row`
(line 136). -/
def pageRows (page : Node) : List Node :=
  page.selectChild ⟨some "div", ["table-row-group"]⟩ ⟨some "div", ["table-row"]⟩

/-- All records of one page document, skipped rows dropped, order kept
(lines 139–186). -/
def parsePage (page : Node) : List CatalogRecord :=
  (pageRows page).filterMap parseRow

end PokebaseScraper

/-- Decidable equality for `Except`, used to evaluate `parse` results on
concrete documents. -/
instance {ε : Type _} {α : Type _} [DecidableEq ε] [DecidableEq α] :
    DecidableEq (Except ε α) := fun
  | .error e, .error f =>
    if h : e = f then .isTrue (congrArg Except.error h)
    else .isFalse (fun hh => h (by cases hh; rfl))
  | .error _, .ok _ => .isFalse (fun hh => Except.noConfusion hh)
  | .ok _, .error _ => .isFalse (fun hh => Except.noConfusion hh)
  | .ok a, .ok b =>
    if h : a = b then .isTrue (congrArg Except.ok h)
    else .isFalse (fun hh => h (by cases hh; rfl))

/-! ## `src/scrapers/pokemon_detail_scraper.py` — PokemonDetailScraper -/

/-- `clean_img` (lines 14–17): `None` or empty input gives `None`
(`if not url`), otherwise the query string is stripped. -/
def clean_img : Option String → Option String
  | none => none
  | some url => if url = "" then none else some (stripQuery url)

namespace PokemonDetailScraper

/-- One Playwright attempt of `_fetch_html` as seen from outside: either an
exception (`crash`) or a captured document. -/
inductive FetchOutcome where
  | crash : FetchOutcome
  | page : (html : String) → FetchOutcome

/-- Is an attempt outcome a failure for the engine (an exception, or a
capture that is empty or shorter than 200 characters)? -/
def FetchOutcome.failed : FetchOutcome → Bool
  | .crash => true
  | .page h => h.length < 200

/-- `PokemonDetailScraper._fetch_html` (lines 41–86): one trace entry is
consumed per attempt, the first argument is the remaining attempt budget
(`retries` at the top call).  A crash or a capture with
`not html or len(html) < 200` continues the loop; a long enough capture is
returned; an exhausted budget returns `None`. -/
def fetchHtml : Nat → List FetchOutcome → Option String
  | 0, _ => none
  | _ + 1, [] => none
  | n + 1, .crash :: rest => fetchHtml n rest
  | n + 1, .page h :: rest => if h.length < 200 then fetchHtml n rest else some h

/-- Variant detection on the extracted display name (lines 101–112). -/
def detectVariant (name : String) : String :=
  let nl := pyLower name
  if pyStartsWith nl "mega " then "mega"
  else if pyStartsWith nl "gigantamax " then "gmax"
  else if pyStartsWith nl "dynamax " then "dmax"
  else if pyStartsWith nl "shadow " then "shadow"
  else "normal"

/-- The spec's wording of variant classification: prefix rules in priority
order, first match wins, otherwise `normal` (spec §4.4). -/
def variantRules : List (String × String) :=
  [("mega ", "mega"), ("gigantamax ", "gmax"), ("dynamax ", "dmax"), ("shadow ", "shadow")]

/-- Variant classification as the spec words it, to be compared with
`detectVariant`. -/
def variantSpec (name : String) : String :=
  match variantRules.find? (fun r => pyStartsWith (pyLower name) r.1) with
  | some r => r.2
  | none => "normal"

/-- The sprites mapping (lines 125–141): a fixed four-key dictionary. -/
structure Sprites where
  «default» : Option String
  go : Option String
  go_shiny : Option String
  shuffle : Option String
deriving DecidableEq, Repr

/-- Base stats (lines 152–158). -/
structure BaseStats where
  attack : Option String
  defense : Option String
  stamina : Option String
deriving DecidableEq, Repr

/-- The CP table (lines 163–169): five fixed level keys. -/
structure CpTable where
  lvl50 : Option String
  lvl40 : Option String
  lvl25 : Option String
  lvl20 : Option String
  lvl15 : Option String
deriving DecidableEq, Repr

/-- One `weak_to` / `resistant_to` entry (lines 180–183). -/
structure TypeMult where
  type : String
  multiplier : String
deriving DecidableEq, Repr

/-- One fast/charge move entry (lines 208–211). -/
structure MoveEntry where
  name : Option String
  damage : String
deriving DecidableEq, Repr

/-- One evolution-tree entry (lines 246–249). -/
structure EvoEntry where
  name : Option String
  image : Option String
deriving DecidableEq, Repr

/-- The detail record produced by `parse` (lines 91–251). -/
structure DetailRecord where
  name : String
  variant : String
  dex : Option String
  image : Option String
  sprites : Sprites
  types : List (Option String)
  base_stats : BaseStats
  cp : CpTable
  weak_to : List TypeMult
  resistant_to : List TypeMult
  fast_moves : List MoveEntry
  charge_moves : List MoveEntry
  dynamax_moves : List String
  evolution_tree : List EvoEntry
deriving DecidableEq, Repr

/-- `h1.font-logo` (line 97): the display name, `""` when absent. -/
def nameOf (doc : Node) : String :=
  match doc.selectOne ⟨some "h1", ["font-logo"]⟩ with
  | some h1 => getTextStrip h1
  | none => ""

/-- `div.top-3.right-3 span` (lines 117–118): dex text with every `#`
removed (`str.replace("#", "")`), `None` when absent. -/
def dexOf (doc : Node) : Option String :=
  match (doc.selectDesc ⟨some "div", ["top-3", "right-3"]⟩ ⟨some "span", []⟩).head? with
  | some el => some (pyRemoveHash (getTextStrip el))
  | none => none

/-- `div.h-60 img` (lines 121–122): the primary image, query-stripped via
`clean_img`, `None` when the element or its `src` is absent. -/
def imageOf (doc : Node) : Option String :=
  match (doc.selectDesc ⟨some "div", ["h-60"]⟩ ⟨some "img", []⟩).head? with
  | some el => clean_img (el.attr "src")
  | none => none

/-- The alternate-sprite images `div.flex.gap-2 img` (line 132). -/
def spriteImgs (doc : Node) : List Node :=
  doc.selectDesc ⟨some "div", ["flex", "gap-2"]⟩ ⟨some "img", []⟩

/-- One step of the sprite-classification loop (lines 133–141): the `alt`
label (`(img.get("alt") or "").lower()`) routes the image to `go_shiny`,
`go` or `shuffle`; unmatched labels are ignored.  The `default` slot is
never assigned. -/
def spriteStep (s : Sprites) (img : Node) : Sprites :=
  let alt := pyLower ((img.attr "alt").getD "")
  let src := clean_img (img.attr "src")
  if pyContains "shiny" alt then { s with go_shiny := src }
  else if alt = "go" then { s with go := src }
  else if pyContains "shuffle" alt then { s with shuffle := src }
  else s

/-- The sprites mapping (lines 125–141): start from
`{default: image, go: None, go_shiny: None, shuffle: None}` and fold the
classification loop over the alternate images. -/
def spritesOf (doc : Node) : Sprites :=
  (spriteImgs doc).foldl spriteStep
    { «default» := imageOf doc, go := none, go_shiny := none, shuffle := none }

/-- `div.top-3.left-3 img` (lines 146–147): the `alt` labels of the type
badges in DOM order (`img.get("alt")` may be `None`). -/
def typesOf (doc : Node) : List (Option String) :=
  (doc.selectDesc ⟨some "div", ["top-3", "left-3"]⟩ ⟨some "img", []⟩).map (fun t => t.attr "alt")

/-- The stripped texts of `div.grid.grid-cols-3 span.font-medium`
(line 152). -/
def statTexts (doc : Node) : List String :=
  (doc.selectDesc ⟨some "div", ["grid", "grid-cols-3"]⟩ ⟨some "span", ["font-medium"]⟩).map
    getTextStrip

/-- Base-stats assignment (lines 153–158): exactly three elements map in
order to attack/defense/stamina, any other count leaves all three null. -/
def baseStatsOf (l : List String) : BaseStats :=
  if l.length = 3 then { attack := l.get? 0, defense := l.get? 1, stamina := l.get? 2 }
  else { attack := none, defense := none, stamina := none }

/-- The CP value elements `.font-mono.tabular-nums.font-semibold.text-sm`
(line 164). -/
def cpTexts (doc : Node) : List String :=
  (doc.select ⟨none, ["font-mono", "tabular-nums", "font-semibold", "text-sm"]⟩).map getTextStrip

/-- The CP table (lines 163–169): `zip(cp_lv, cp_els)` pairs the five fixed
keys positionally with however many elements are present. -/
def cpOf (l : List String) : CpTable :=
  { lvl50 := l.get? 0, lvl40 := l.get? 1, lvl25 := l.get? 2, lvl20 := l.get? 3, lvl15 := l.get? 4 }

/-- The `weak_to` / `resistant_to` body (lines 174–197): from the parent of
the matched label span, each `a.flex` anchor with at least two inner spans
contributes `{type: spans[0], multiplier: spans[-1]}`. -/
def typeMultsFrom (parent : Node) : List TypeMult :=
  (parent.select ⟨some "a", ["flex"]⟩).filterMap fun a =>
    let spans := a.select ⟨some "span", []⟩
    match spans.head?, spans.getLast? with
    | some s0, some sl =>
      if 2 ≤ spans.length then some { type := getTextStrip s0, multiplier := getTextStrip sl }
      else none
    | _, _ => none

/-- `weak_to` (lines 174–183): label span containing `"Weak to"`; absence
yields the empty list. -/
def weakToOf (doc : Node) : List TypeMult :=
  match doc.findTagString "span" (pyContains "Weak to") with
  | some (parent, _) => typeMultsFrom parent
  | none => []

/-- `resistant_to` (lines 188–197): label span containing `"Resistant to"`. -/
def resistantToOf (doc : Node) : List TypeMult :=
  match doc.findTagString "span" (pyContains "Resistant to") with
  | some (parent, _) => typeMultsFrom parent
  | none => []

/-- The move-list loop body (lines 205–211 and 219–225) over a list of
anchors: for each anchor the name is
`select_one("span.flex-grow") or select_one("span")` (null when both are
absent) and the damage is `a.select("button")[-1]` — an anchor without any
button raises `IndexError`, modelled as `.error`, which aborts the loop at
the first such anchor exactly as the exception does. -/
def movesFromList : List Node → Except String (List MoveEntry)
  | [] => .ok []
  | a :: rest =>
    match (a.select ⟨some "button", []⟩).getLast? with
    | none => .error "IndexError: list index out of range"
    | some dmg =>
      match movesFromList rest with
      | .error e => .error e
      | .ok ms =>
        .ok ({ name := ((a.selectOne ⟨some "span", ["flex-grow"]⟩ <|>
                  a.selectOne ⟨some "span", []⟩).map getTextStrip)
               damage := getTextStrip dmg } :: ms)

/-- The move-list body applied to the anchors of the container found after
a heading. -/
def movesFrom (container : Node) : Except String (List MoveEntry) :=
  movesFromList (container.select ⟨some "a", []⟩)

/-- Is a node an `h2` whose `Tag.string` contains `sub`? -/
def isH2With (sub : String) (n : Node) : Bool :=
  n.hasTag "h2" && (match n.string? with | some s => pyContains sub s | none => false)

/-- `fast_moves` (lines 202–211): no `"Fast"` heading yields `[]`; a heading
with no following `div` makes `find_next` return `None` and the `.select`
call raise (`AttributeError`), modelled as `.error`. -/
def fastMovesOf (doc : Node) : Except String (List MoveEntry) :=
  match findHeadingContainer (isH2With "Fast") doc with
  | .noHeading => .ok []
  | .noContainer => .error "AttributeError: NoneType has no attribute select"
  | .container d => movesFrom d

/-- `charge_moves` (lines 216–225). -/
def chargeMovesOf (doc : Node) : Except String (List MoveEntry) :=
  match findHeadingContainer (isH2With "Charge") doc with
  | .noHeading => .ok []
  | .noContainer => .error "AttributeError: NoneType has no attribute select"
  | .container d => movesFrom d

/-- `dynamax_moves` (lines 230–236): for each anchor of the container the
text of its `div.text-sm`, anchors without one skipped. -/
def dynamaxMovesOf (doc : Node) : Except String (List String) :=
  match findHeadingContainer (isH2With "Dynamax") doc with
  | .noHeading => .ok []
  | .noContainer => .error "AttributeError: NoneType has no attribute select"
  | .container d =>
    .ok ((d.select ⟨some "a", []⟩).filterMap fun a =>
      (a.selectOne ⟨some "div", ["text-sm"]⟩).map getTextStrip)

/-- `evolution_tree` (lines 241–249): each `div.flex.flex-col.gap-2 a`
anchor yields `{name, image}`, both independently optional. -/
def evolutionTreeOf (doc : Node) : List EvoEntry :=
  (doc.selectDesc ⟨some "div", ["flex", "flex-col", "gap-2"]⟩ ⟨some "a", []⟩).map fun a =>
    { name := (a.selectOne ⟨some "span", ["font-semibold"]⟩).map getTextStrip
      image := match a.selectOne ⟨some "img", []⟩ with
        | some i => clean_img (i.attr "src")
        | none => none }

/-- `PokemonDetailScraper.parse` (lines 91–251).  All fields except the
move sections are total; the move sections are the only places the Python
body can raise (`IndexError` on a button-less move anchor,
`AttributeError` when a matched heading has no following `div`), and a
raise aborts the whole record, so the result is `Except`.  The Python
field order evaluates `fast_moves` before `charge_moves` before
`dynamax_moves`, which fixes which error escapes first. -/
def parse (doc : Node) : Except String DetailRecord := do
  let fast ← fastMovesOf doc
  let charge ← chargeMovesOf doc
  let dyn ← dynamaxMovesOf doc
  .ok
    { name := nameOf doc
      variant := detectVariant (nameOf doc)
      dex := dexOf doc
      image := imageOf doc
      sprites := spritesOf doc
      types := typesOf doc
      base_stats := baseStatsOf (statTexts doc)
      cp := cpOf (cpTexts doc)
      weak_to := weakToOf doc
      resistant_to := resistantToOf doc
      fast_moves := fast
      charge_moves := charge
      dynamax_moves := dyn
      evolution_tree := evolutionTreeOf doc }

end PokemonDetailScraper

/-! ## `src/scrap_pokemon_main.py` — the run orchestrator -/

namespace ScrapPokemonMain

/-- The slug of an entry URL (line 82): `url.rstrip("/").split("/")[-1]`. -/
def slugOf (url : String) : String :=
  (pySplitSep (pyRstripSlash url) "/").getLastD ""

/-- One catalog entry as the orchestrator reads it; only `url`
(`item.get("url")`) drives the control flow. -/
structure Item where
  url : Option String
deriving DecidableEq, Repr

/-- The environment's verdict on processing one entry when it is actually
fetched: the engine returns `None` (`fetchFail`), fetch succeeds but
`parse`/serialisation raises (`parseError`), or the artifact is written
(`ok`). -/
inductive EntryOutcome where
  | fetchFail : EntryOutcome
  | parseError : EntryOutcome
  | ok : EntryOutcome
deriving DecidableEq, Repr

/-- Observable result of one `main` run: the output-directory contents, the
number of Fetch-Engine invocations, and the final `success`/`failed`
counters. -/
structure RunResult where
  files : List String
  fetches : Nat
  success : Nat
  failed : Nat
deriving DecidableEq, Repr

/-- The entry loop of `main` (lines 75–126).  `oracle idx` decides the
outcome of the fetch+parse `try` block for the entry at index `idx`; a
fetch is invoked exactly when an entry has a truthy `url` and its
`{slug}.json` artifact is not yet in `files`. -/
def loop (oracle : Nat → EntryOutcome) :
    Nat → List Item → List String → Nat → Nat → Nat → RunResult
  | _, [], files, fetches, s, f => ⟨files, fetches, s, f⟩
  | idx, it :: rest, files, fetches, s, f =>
    match it.url with
    | none => loop oracle (idx + 1) rest files fetches s (f + 1)
    | some u =>
      if u = "" then loop oracle (idx + 1) rest files fetches s (f + 1)
      else
        let out := slugOf u ++ ".json"
        if files.contains out then loop oracle (idx + 1) rest files fetches s f
        else
          match oracle idx with
          | .fetchFail => loop oracle (idx + 1) rest files (fetches + 1) s (f + 1)
          | .parseError => loop oracle (idx + 1) rest files (fetches + 1) s (f + 1)
          | .ok => loop oracle (idx + 1) rest (out :: files) (fetches + 1) (s + 1) f

/-- One orchestrator run over a catalog against an output directory already
holding `files0`. -/
def runMain (oracle : Nat → EntryOutcome) (items : List Item) (files0 : List String) :
    RunResult :=
  loop oracle 0 items files0 0 0 0

end ScrapPokemonMain

/-! ## `src/upload_firestore.py` — normalize_json -/

/-- A JSON value as `json.load` produces it; objects are ordered key/value
lists (Python dicts preserve insertion order). -/
inductive JValue where
  | null : JValue
  | bool : Bool → JValue
  | num : Int → JValue
  | str : String → JValue
  | arr : List JValue → JValue
  | obj : List (String × JValue) → JValue

/-- Key lookup in an object's entry list (Python `data["k"]` / `"k" in`). -/
def objLookup (k : String) : List (String × JValue) → Option JValue
  | [] => none
  | (k', v) :: rest => if k' = k then some v else objLookup k rest

/-- Python `d[k] = v` on a dict: replace in place when the key exists,
append otherwise. -/
def objSet : List (String × JValue) → String → JValue → List (String × JValue)
  | [], k, v => [(k, v)]
  | (k', v') :: rest, k, v =>
    if k' = k then (k', v) :: rest else (k', v') :: objSet rest k v

/-- Is a value an array? -/
def JValue.isArr : JValue → Bool
  | .arr _ => true
  | _ => false

/-- The case-1 test of `normalize_json` (line 77):
`isinstance(data, dict) and "results" in data and isinstance(data["results"], list)`. -/
def isNormalized : JValue → Bool
  | .obj kvs => match objLookup "results" kvs with
    | some (.arr _) => true
    | _ => false
  | _ => false

/-- Tag one item of a category list (lines 87–93): a dict gets
`category` injected (`dict(it)` copy then assignment), anything else is
wrapped as `{"value": it, "category": category}`. -/
def tagOne (category : String) : JValue → JValue
  | .obj kvs => .obj (objSet kvs "category" (.str category))
  | v => .obj [("value", v), ("category", .str category)]

/-- The case-2 flattening loop of `normalize_json` (lines 82–101): list
values contribute their tagged items, non-list values are wrapped with
their category. -/
def tagItems : List (String × JValue) → List JValue
  | [] => []
  | (category, v) :: rest =>
    (match v with
      | .arr items => items.map (tagOne category)
      | other => [.obj [("value", other), ("category", .str category)]]) ++ tagItems rest

/-- `normalize_json` (lines 59–108); the `doc_id` parameter is accepted and
unused, as in the source. -/
def normalize_json (data : JValue) (_doc_id : String) : JValue :=
  if isNormalized data then data
  else match data with
    | .obj kvs => .obj [("results", .arr (tagItems kvs))]
    | .arr xs => .obj [("results", .arr xs)]
    | v => .obj [("results", .arr [v])]

/-! ## Decidable safety predicates and access helpers used by the theorems -/

namespace PokemonDetailScraper

/-- Every move anchor of a container carries at least one `button` child, so
`a.select("button")[-1]` cannot raise. -/
def movesSafe (container : Node) : Bool :=
  (container.select ⟨some "a", []⟩).all fun a => !(a.select ⟨some "button", []⟩).isEmpty

/-- The `"Fast"` section cannot raise: either no heading, or a following
container whose anchors all have buttons. -/
def fastSectionSafe (doc : Node) : Bool :=
  match findHeadingContainer (isH2With "Fast") doc with
  | .noHeading => true
  | .noContainer => false
  | .container d => movesSafe d

/-- The `"Charge"` section cannot raise. -/
def chargeSectionSafe (doc : Node) : Bool :=
  match findHeadingContainer (isH2With "Charge") doc with
  | .noHeading => true
  | .noContainer => false
  | .container d => movesSafe d

/-- The `"Dynamax"` section cannot raise (its anchors need no buttons). -/
def dynSectionSafe (doc : Node) : Bool :=
  match findHeadingContainer (isH2With "Dynamax") doc with
  | .noContainer => false
  | _ => true

end PokemonDetailScraper

namespace ScrapPokemonMain

/-- Python truthiness of `item.get("url")` in `if not url` (line 77): a
present, non-empty url. -/
def Item.urlTruthy (it : Item) : Bool :=
  match it.url with
  | some u => u != ""
  | none => false

end ScrapPokemonMain

/-- Array lookup under the `"results"` key of an object, `none` for
non-objects: the shape the uploader's envelope guarantees. -/
def resultsOf : JValue → Option JValue
  | .obj kvs => objLookup "results" kvs
  | _ => none

/-! ## Concrete documents and values used by witnesses and counterexamples -/

section Examples

open PokebaseScraper PokemonDetailScraper ScrapPokemonMain

/-- A listing row with a relative href, a query-carrying image and two
metric cells. -/
def exRow : Node :=
  .elem "div" ["table-row"] [] [
    .elem "span" ["table-cell"] [] [
      .elem "a" [] [("href", "/pokemon/25")] [
        .elem "img" [] [("src", "https://img.site/25.png?w=64")] [],
        .elem "span" ["font-semibold"] [] [.elem "div" ["truncate"] [] [.text "Pikachu"]]]],
    .elem "span" ["table-cell"] [] [.text "  931 "],
    .elem "span" ["table-cell"] [] [.text "B"]]

/-- The record `parseRow` extracts from `exRow`. -/
def exRowRec : CatalogRecord :=
  { name := some "Pikachu", url := some "https://pokebase.app/pokemon/25"
    img := some "https://img.site/25.png"
    lvl50 := some "931", gl := some "B", ul := none, ml := none
    tier := none, atk := none, «def» := none, sta := none }

/-- A listing row whose first-cell anchor carries no `href` attribute. -/
def exRowNoHref : Node :=
  .elem "div" ["table-row"] [] [
    .elem "span" ["table-cell"] [] [
      .elem "a" [] [] [.elem "span" ["font-semibold"] [] [.text "Ditto"]]]]

/-- A complete, well-formed detail page exercising every section of
`parse`; its second fast-move anchor has no name element. -/
def exDetail : Node :=
  .elem "html" [] [] [
    .elem "h1" ["font-logo"] [] [.text "Charizard"],
    .elem "div" ["top-3", "right-3"] [] [.elem "span" [] [] [.text "#006"]],
    .elem "div" ["h-60"] [] [.elem "img" [] [("src", "https://img.site/6.png?x=1")] []],
    .elem "div" ["flex", "gap-2"] [] [
      .elem "img" [] [("alt", "GO shiny"), ("src", "https://img.site/6s.png?x=1")] [],
      .elem "img" [] [("alt", "go"), ("src", "https://img.site/6g.png")] []],
    .elem "div" ["top-3", "left-3"] [] [
      .elem "img" [] [("alt", "Fire")] [], .elem "img" [] [("alt", "Flying")] []],
    .elem "div" ["grid", "grid-cols-3"] [] [
      .elem "span" ["font-medium"] [] [.text "223"],
      .elem "span" ["font-medium"] [] [.text "173"],
      .elem "span" ["font-medium"] [] [.text "186"]],
    .elem "span" ["font-mono", "tabular-nums", "font-semibold", "text-sm"] [] [.text "3266"],
    .elem "span" ["font-mono", "tabular-nums", "font-semibold", "text-sm"] [] [.text "2889"],
    .elem "div" [] [] [
      .elem "span" [] [] [.text "Weak to"],
      .elem "a" ["flex"] [] [
        .elem "span" [] [] [.text "Rock"], .elem "span" [] [] [.text "256%"]]],
    .elem "h2" [] [] [.text "Fast Moves"],
    .elem "div" [] [] [
      .elem "a" [] [] [
        .elem "span" ["flex-grow"] [] [.text "Ember"],
        .elem "button" [] [] [.text "10"]],
      .elem "a" [] [] [
        .elem "button" [] [] [.text "12"]]],
    .elem "div" ["flex", "flex-col", "gap-2"] [] [
      .elem "a" [] [] [
        .elem "img" [] [("src", "https://img.site/4.png?q=1")] [],
        .elem "span" ["font-semibold"] [] [.text "Charmander"]]]]

/-- The record `parse` extracts from `exDetail`. -/
def exDetailRec : DetailRecord :=
  { name := "Charizard", variant := "normal", dex := some "006"
    image := some "https://img.site/6.png"
    sprites := { «default» := some "https://img.site/6.png"
                 go := some "https://img.site/6g.png"
                 go_shiny := some "https://img.site/6s.png", shuffle := none }
    types := [some "Fire", some "Flying"]
    base_stats := { attack := some "223", defense := some "173", stamina := some "186" }
    cp := { lvl50 := some "3266", lvl40 := some "2889", lvl25 := none, lvl20 := none,
            lvl15 := none }
    weak_to := [{ type := "Rock", multiplier := "256%" }]
    resistant_to := []
    fast_moves := [{ name := some "Ember", damage := "10" }, { name := none, damage := "12" }]
    charge_moves := [], dynamax_moves := []
    evolution_tree := [{ name := some "Charmander", image := some "https://img.site/4.png" }] }

/-- A detail page whose only defect is one move anchor with a name element
but no damage (`button`) element. -/
def exBadDetail : Node :=
  .elem "html" [] [] [
    .elem "h2" [] [] [.text "Fast Moves"],
    .elem "div" [] [] [
      .elem "a" [] [] [.elem "span" [] [] [.text "Quick Attack"]]]]

/-- A one-entry catalog for the orchestrator scenarios. -/
def c4Items : List Item := [⟨some "https://pokebase.app/pokemon/pikachu/"⟩]

end Examples

/-! ## Theorems -/

set_option maxRecDepth 1000000

open PokebaseScraper in
/-- C1. The spec claims the multi-page document set handed to the Catalog
Extractor holds exactly the single successful attempt's pages joined by the
page-boundary marker.  The code violates this twice: `all_pages_html` is
initialised before the attempt loop, so pages captured by earlier failed
attempts stay in the set; and the returned merged document joins pages with
`"\n"` (only the disk snapshot uses the marker), so the extractor's split
on `"<!--PAGE_BREAK-->"` yields a single part.  With attempt 1 crashing
after capturing page `"<p>A1</p>"` and attempt 2 succeeding with page
`"<p>B1</p>"`, the function returns the stale page in both outputs and the
merged document contains no marker. -/
theorem c1_page_aggregation_bug :
    PokebaseScraper.fetchHtml [.crash ["<p>A1</p>"], .success ["<p>B1</p>"]] [] =
      some ("<p>A1</p>\n<!--PAGE_BREAK-->\n<p>B1</p>", "<p>A1</p>\n<p>B1</p>") ∧
    pySplitSep "<p>A1</p>\n<p>B1</p>" PokebaseScraper.pageBreak = ["<p>A1</p>\n<p>B1</p>"] ∧
    pySplitSep "<p>A1</p>\n<p>B1</p>" PokebaseScraper.pageBreak ≠ ["<p>B1</p>"] := by
  refine ⟨by decide, by decide, by decide⟩

open PokemonDetailScraper in
/-- C5.  Variant classification lower-cases the extracted display name and
applies the prefix rules `"mega "`→mega, `"gigantamax "`→gmax,
`"dynamax "`→dmax, `"shadow "`→shadow in priority order, first match wins,
otherwise normal; it is case-insensitive (it depends only on the
lower-cased name), agrees with the rule-list form `variantSpec`, and
matches the spec's examples. -/
theorem c5_variant_classification :
    (∀ s, detectVariant s = variantSpec s) ∧
    (∀ s t, pyLower s = pyLower t → detectVariant s = detectVariant t) ∧
    detectVariant "Mega Charizard X" = "mega" ∧
    detectVariant "MEGA Garchomp" = "mega" ∧
    detectVariant "Gigantamax Butterfree" = "gmax" ∧
    detectVariant "Dynamax Snorlax" = "dmax" ∧
    detectVariant "Shadow Mewtwo" = "shadow" ∧
    detectVariant "Pikachu" = "normal" := by
  refine ⟨?_, ?_, by decide, by decide, by decide, by decide, by decide, by decide⟩
  · intro s
    unfold detectVariant variantSpec variantRules
    cases h1 : pyStartsWith (pyLower s) "mega " <;>
      cases h2 : pyStartsWith (pyLower s) "gigantamax " <;>
        cases h3 : pyStartsWith (pyLower s) "dynamax " <;>
          cases h4 : pyStartsWith (pyLower s) "shadow " <;>
            simp [List.find?, h1, h2, h3, h4]
  · intro s t h
    unfold detectVariant
    rw [h]

open PokemonDetailScraper in
/-- C5 witness: case-insensitivity applied at `"MEGA Garchomp"`. -/
theorem c5_variant_classification_witness :
    detectVariant "MEGA Garchomp" = detectVariant "mega Garchomp" :=
  c5_variant_classification.2.1 "MEGA Garchomp" "mega Garchomp" (by decide)

open PokemonDetailScraper in
/-- C6.  The detail Fetch Engine discards a capture that is empty or
shorter than 200 characters and retries with one fewer attempt left (same
for an exception); a long enough capture is returned; and when the first
`retries` outcomes are all failures the engine returns `none` — a terminal
failure producing no document. -/
theorem c6_fetch_engine_retry :
    (∀ n rest h, h.length < 200 →
      PokemonDetailScraper.fetchHtml (n + 1) (.page h :: rest) =
        PokemonDetailScraper.fetchHtml n rest) ∧
    (∀ n rest h, ¬ h.length < 200 →
      PokemonDetailScraper.fetchHtml (n + 1) (.page h :: rest) = some h) ∧
    (∀ n rest, PokemonDetailScraper.fetchHtml (n + 1) (.crash :: rest) =
      PokemonDetailScraper.fetchHtml n rest) ∧
    (∀ retries trace, (∀ o ∈ trace.take retries, o.failed = true) →
      PokemonDetailScraper.fetchHtml retries trace = none) := by
  refine ⟨?_, ?_, ?_, ?_⟩
  · intro n rest h hlt
    simp [PokemonDetailScraper.fetchHtml, hlt]
  · intro n rest h hge
    simp [PokemonDetailScraper.fetchHtml, hge]
  · intro n rest
    rfl
  · intro retries
    induction retries with
    | zero => intro trace _; rfl
    | succ n ih =>
      intro trace hall
      cases trace with
      | nil => rfl
      | cons o rest =>
        have hfail : o.failed = true := hall o (by simp)
        have htail : ∀ o' ∈ rest.take n, o'.failed = true := by
          intro o' ho'
          exact hall o' (by simp [List.take_succ_cons]; right; exact ho')
        cases o with
        | crash => simpa [PokemonDetailScraper.fetchHtml] using ih rest htail
        | page h =>
          have hlt : h.length < 200 := by
            simpa [FetchOutcome.failed] using hfail
          simpa [PokemonDetailScraper.fetchHtml, hlt] using ih rest htail

open PokemonDetailScraper in
/-- C6 witness: two consecutive failures (a 5-character capture, then a
crash) against a budget of 2 attempts yield a terminal failure. -/
theorem c6_fetch_engine_retry_witness :
    PokemonDetailScraper.fetchHtml 2 [.page "short", .crash] = none :=
  c6_fetch_engine_retry.2.2.2 2 [.page "short", .crash] (by decide)

open PokebaseScraper in
/-- C7.  Pagination discovery tokenizes the control's text on whitespace
and returns the Python-`int` parse of the token after the first `"of"`
token; an absent control, a missing `"of"` token (or a trailing one), or
an unparsable following token all give 1 without raising.  The spec's
three examples evaluate as stated. -/
theorem c7_pagination_discovery :
    PokebaseScraper.detectTotalPagesText "Page 1 of 12" = 12 ∧
    PokebaseScraper.detectTotalPagesText "Page 1" = 1 ∧
    PokebaseScraper.detectTotalPagesText "Page 1 of abc" = 1 ∧
    (∀ doc, doc.selectOne barSel = none → detectTotalPages doc = 1) ∧
    (∀ doc bar, doc.selectOne barSel = some bar →
      detectTotalPages doc = detectTotalPagesText (getTextSep " " bar)) ∧
    (∀ text, afterOf (pySplitWs text) = none → detectTotalPagesText text = 1) ∧
    (∀ text tok, afterOf (pySplitWs text) = some tok →
      detectTotalPagesText text = (pyIntParse tok).getD 1) := by
  refine ⟨by decide, by decide, by decide, ?_, ?_, ?_, ?_⟩
  · intro doc h
    simp [detectTotalPages, h]
  · intro doc bar h
    simp [detectTotalPages, h]
  · intro text h
    simp [detectTotalPagesText, h]
  · intro text tok h
    cases hp : pyIntParse tok <;> simp [detectTotalPagesText, h, hp]

open PokebaseScraper in
/-- C7 witness: the absent-control fallback applied to a document with no
pagination control, and the token rule applied to `"Page 1 of 12"`. -/
theorem c7_pagination_discovery_witness :
    detectTotalPages (.elem "html" [] [] [.text "empty"]) = 1 ∧
    detectTotalPagesText "Page 1 of 12" = (pyIntParse "12").getD 1 :=
  ⟨c7_pagination_discovery.2.2.2.1 (.elem "html" [] [] [.text "empty"]) rfl,
   c7_pagination_discovery.2.2.2.2.2.2 "Page 1 of 12" "12" (by decide)⟩

open PokemonDetailScraper in
/-- Inversion for a successful `parse`: every pure field of the record is
the corresponding extractor applied to the document (the move sections are
the only fallible parts). -/
theorem parse_ok_fields {doc : Node} {r : PokemonDetailScraper.DetailRecord}
    (h : PokemonDetailScraper.parse doc = .ok r) :
    r.name = nameOf doc ∧ r.variant = detectVariant (nameOf doc) ∧
    r.image = imageOf doc ∧ r.sprites = spritesOf doc ∧
    r.base_stats = baseStatsOf (statTexts doc) := by
  unfold PokemonDetailScraper.parse at h
  cases hf : fastMovesOf doc with
  | error e => rw [hf] at h; simp [Bind.bind, Except.bind] at h
  | ok fast =>
    rw [hf] at h
    cases hc : chargeMovesOf doc with
    | error e => rw [hc] at h; simp [Bind.bind, Except.bind] at h
    | ok charge =>
      rw [hc] at h
      cases hd : dynamaxMovesOf doc with
      | error e => rw [hd] at h; simp [Bind.bind, Except.bind] at h
      | ok dyn =>
        rw [hd] at h
        simp only [Bind.bind, Except.bind, Except.ok.injEq] at h
        subst h
        exact ⟨rfl, rfl, rfl, rfl, rfl⟩

open PokemonDetailScraper in
/-- The sprite-classification fold never writes the `default` slot. -/
theorem foldl_spriteStep_default (imgs : List Node) :
    ∀ s : Sprites, ((imgs.foldl spriteStep s).«default») = s.«default» := by
  induction imgs with
  | nil => intro s; rfl
  | cons i rest ih =>
    intro s
    rw [List.foldl_cons, ih]
    unfold spriteStep
    dsimp only
    split
    · rfl
    split
    · rfl
    split
    · rfl
    · rfl

open PokemonDetailScraper in
/-- The move loop succeeds on a list of anchors that all have at least one
button. -/
theorem movesFromList_total (l : List Node)
    (h : ∀ a ∈ l, ((a.select ⟨some "button", []⟩).isEmpty) = false) :
    ∃ ms, movesFromList l = .ok ms := by
  induction l with
  | nil => exact ⟨[], rfl⟩
  | cons a rest ih =>
    have ha : ((a.select ⟨some "button", []⟩).isEmpty) = false := h a (by simp)
    have hne : (a.select ⟨some "button", []⟩) ≠ [] := by
      intro hnil; rw [hnil] at ha; exact Bool.true_eq_false.mp ha
    obtain ⟨dmg, hdmg⟩ :=
      Option.isSome_iff_exists.mp (List.getLast?_isSome.mpr hne)
    obtain ⟨ms, hms⟩ := ih (fun a' ha' => h a' (by simp [ha']))
    refine ⟨MoveEntry.mk ((a.selectOne ⟨some "span", ["flex-grow"]⟩ <|>
      a.selectOne ⟨some "span", []⟩).map getTextStrip) (getTextStrip dmg) :: ms, ?_⟩
    simp [movesFromList, hdmg, hms]

open PokemonDetailScraper in
/-- A container all of whose anchors have buttons yields a successful move
list. -/
theorem movesFrom_total (d : Node) (h : movesSafe d = true) :
    ∃ ms, movesFrom d = .ok ms := by
  unfold movesFrom
  apply movesFromList_total
  intro a ha
  have := (List.all_eq_true.mp h) a ha
  simpa using this

open PokemonDetailScraper in
/-- C2 (amended).  The claim as written is false — see the counterexample:
a move anchor with no damage (`button`) element raises `IndexError`
(`a.select("button")[-1]`) and aborts the whole record, and a matched
Fast/Charge/Dynamax heading with no following `div` makes `find_next`
return `None` and the subsequent `.select` raise.  Amended: parse is total
and attribute-by-attribute tolerant whenever every matched moves heading
has a following container and every move anchor has at least one button;
in particular a move anchor with no name element still records a null name
(second conjunct). -/
theorem c2_detail_parse_tolerance :
    (∀ doc, fastSectionSafe doc = true → chargeSectionSafe doc = true →
      dynSectionSafe doc = true → ∃ r, PokemonDetailScraper.parse doc = .ok r) ∧
    (∀ l ms, movesFromList l = .ok ms → ∀ i a, l.get? i = some a →
      ∃ m, ms.get? i = some m ∧
        m.name = ((a.selectOne ⟨some "span", ["flex-grow"]⟩ <|>
          a.selectOne ⟨some "span", []⟩).map getTextStrip)) := by
  constructor
  · intro doc hf hc hd
    have hfast : ∃ ms, fastMovesOf doc = .ok ms := by
      unfold fastSectionSafe at hf
      unfold fastMovesOf
      cases hfc : findHeadingContainer (isH2With "Fast") doc with
      | noHeading => exact ⟨[], rfl⟩
      | noContainer => rw [hfc] at hf; cases hf
      | container d => rw [hfc] at hf; exact movesFrom_total d hf
    have hcharge : ∃ ms, chargeMovesOf doc = .ok ms := by
      unfold chargeSectionSafe at hc
      unfold chargeMovesOf
      cases hfc : findHeadingContainer (isH2With "Charge") doc with
      | noHeading => exact ⟨[], rfl⟩
      | noContainer => rw [hfc] at hc; cases hc
      | container d => rw [hfc] at hc; exact movesFrom_total d hc
    have hdyn : ∃ ms, dynamaxMovesOf doc = .ok ms := by
      unfold dynSectionSafe at hd
      unfold dynamaxMovesOf
      cases hfc : findHeadingContainer (isH2With "Dynamax") doc with
      | noHeading => exact ⟨[], rfl⟩
      | noContainer => rw [hfc] at hd; cases hd
      | container d => exact ⟨_, rfl⟩
    obtain ⟨fast, hfast⟩ := hfast
    obtain ⟨charge, hcharge⟩ := hcharge
    obtain ⟨dyn, hdyn⟩ := hdyn
    exact ⟨_, by unfold PokemonDetailScraper.parse; rw [hfast, hcharge, hdyn]; rfl⟩
  · intro l
    induction l with
    | nil => intro ms _ i a hget; simp at hget
    | cons a rest ih =>
      intro ms hms i a' hget
      unfold movesFromList at hms
      cases hdmg : (a.select ⟨some "button", []⟩).getLast? with
      | none => rw [hdmg] at hms; cases hms
      | some dmg =>
        rw [hdmg] at hms
        cases hrest : movesFromList rest with
        | error e => rw [hrest] at hms; cases hms
        | ok tail =>
          rw [hrest] at hms
          cases hms
          cases i with
          | zero =>
            cases hget
            exact ⟨_, rfl, rfl⟩
          | succ i => exact ih tail hrest i a' hget

open PokemonDetailScraper in
/-- C2 counterexample: `exBadDetail`'s only defect is a fast-move anchor
with a name element but no damage element, yet `parse` aborts with the
`IndexError` instead of producing a record with a null damage field. -/
theorem c2_detail_parse_counterexample :
    PokemonDetailScraper.parse exBadDetail =
      .error "IndexError: list index out of range" := by decide

open PokemonDetailScraper in
/-- C2 witness: `exDetail` satisfies all three safety hypotheses and parses
successfully. -/
theorem c2_detail_parse_tolerance_witness :
    ∃ r, PokemonDetailScraper.parse exDetail = .ok r :=
  c2_detail_parse_tolerance.1 exDetail (by decide) (by decide) (by decide)

open PokemonDetailScraper in
/-- C8.  Base-stats extraction is all-or-nothing: in any successful parse
the `base_stats` field is `baseStatsOf` of the stats-group texts; a
three-element group maps in order to attack/defense/stamina, any other
count (two- and four-element groups included) yields all-null stats. -/
theorem c8_base_stats_all_or_nothing :
    (∀ doc r, PokemonDetailScraper.parse doc = .ok r →
      r.base_stats = baseStatsOf (statTexts doc)) ∧
    (∀ l, l.length = 3 → baseStatsOf l = ⟨l.get? 0, l.get? 1, l.get? 2⟩) ∧
    (∀ l, l.length ≠ 3 → baseStatsOf l = ⟨none, none, none⟩) ∧
    baseStatsOf ["120", "100", "190"] =
      ⟨some "120", some "100", some "190"⟩ ∧
    (∀ a b, baseStatsOf [a, b] = ⟨none, none, none⟩) ∧
    (∀ a b c d, baseStatsOf [a, b, c, d] = ⟨none, none, none⟩) := by
  refine ⟨?_, ?_, ?_, by decide, ?_, ?_⟩
  · intro doc r h
    exact (parse_ok_fields h).2.2.2.2
  · intro l h
    unfold baseStatsOf
    rw [if_pos h]
  · intro l h
    unfold baseStatsOf
    rw [if_neg h]
  · intro a b; rfl
  · intro a b c d; rfl

open PokemonDetailScraper in
/-- C8 witness: the three-element stats group of `exDetail`. -/
theorem c8_base_stats_all_or_nothing_witness :
    exDetailRec.base_stats = baseStatsOf (statTexts exDetail) :=
  c8_base_stats_all_or_nothing.1 exDetail exDetailRec (by decide)

open PokemonDetailScraper in
/-- C10.  The sprites mapping of every successfully parsed record has
exactly the four slots `default`, `go`, `go_shiny`, `shuffle` (the
`Sprites` structure, built once as a four-key literal), and its `default`
slot always equals the record's top-level `image` field: the
alternate-sprite classification loop only ever writes the other three
slots. -/
theorem c10_sprites_default_invariant :
    ∀ doc r, PokemonDetailScraper.parse doc = .ok r →
      r.sprites.«default» = r.image := by
  intro doc r h
  obtain ⟨-, -, himg, hsp, -⟩ := parse_ok_fields h
  rw [hsp, himg]
  unfold spritesOf
  rw [foldl_spriteStep_default]

open PokemonDetailScraper in
/-- C10 witness: on `exDetail` both the `default` sprite and the image are
the query-stripped primary image URL. -/
theorem c10_sprites_default_invariant_witness :
    exDetailRec.sprites.«default» = exDetailRec.image :=
  c10_sprites_default_invariant exDetail exDetailRec (by decide)

open PokebaseScraper in
/-- C3 (amended).  The claim as written is false — see the counterexample:
a row whose first-cell anchor has no `href` attribute still produces a
record, with a null (hence non-absolute) `url`.  Amended: every produced
record has the `name`/`url`/`img` fields, where `url` is null exactly when
the anchor has no `href`; an href starting with `"http"` is passed through
unchanged; a non-empty href not starting with `"http"` is prefixed with
the fixed site origin; and `img` is the row's image address with the query
string stripped (null when the image or its `src` is absent, or the `src`
is empty). -/
theorem c3_catalog_record_fields :
    ∀ row r, PokebaseScraper.parseRow row = some r →
      ∃ first a, (row.select cellSel).head? = some first ∧
        first.selectOne aSel = some a ∧
        (a.attr "href" = none → r.url = none) ∧
        (∀ u, a.attr "href" = some u → pyStartsWith u "http" = true → r.url = some u) ∧
        (∀ u, a.attr "href" = some u → u ≠ "" → pyStartsWith u "http" = false →
          r.url = some (PokebaseScraper.siteOrigin ++ u)) ∧
        (a.attr "href" = some "" → r.url = some "") ∧
        (∀ raw, (a.selectOne imgSel).bind (fun i => i.attr "src") = some raw → raw ≠ "" →
          r.img = some (stripQuery raw)) ∧
        ((a.selectOne imgSel).bind (fun i => i.attr "src") = none → r.img = none) ∧
        ((a.selectOne imgSel).bind (fun i => i.attr "src") = some "" → r.img = none) ∧
        r.name = ((a.selectDesc ⟨some "span", ["font-semibold"]⟩
            ⟨some "div", ["truncate"]⟩).head? <|>
          a.selectOne ⟨some "span", ["font-semibold"]⟩).map getTextStrip := by
  intro row r h
  unfold PokebaseScraper.parseRow at h
  dsimp only at h
  split at h
  next => simp at h
  next first heqc =>
    split at h
    next => simp at h
    next a heqa =>
      simp only [Option.some.injEq] at h
      subst h
      refine ⟨first, a, heqc, heqa, ?_, ?_, ?_, ?_, ?_, ?_, ?_, rfl⟩
      · intro hhref; simp [hhref]
      · intro u hhref hstart; simp [hhref, hstart]
      · intro u hhref hne hstart; simp [hhref, hstart, hne]
      · intro hhref; simp [hhref]
      · intro raw hsrc hne; simp [hsrc, hne]
      · intro hsrc; simp [hsrc]
      · intro hsrc; simp [hsrc]

open PokebaseScraper in
/-- C3 counterexample: `exRowNoHref`'s anchor has no `href`, yet a record
is produced — its `url` field is null, not an absolute address. -/
theorem c3_catalog_record_counterexample :
    (PokebaseScraper.parseRow exRowNoHref).isSome = true ∧
    (PokebaseScraper.parseRow exRowNoHref).map PokebaseScraper.CatalogRecord.url =
      some none := by
  exact ⟨by decide, by decide⟩

open PokebaseScraper in
/-- C3 witness: the amended rules applied to `exRow` (relative href
`"/pokemon/25"`, query-carrying image source). -/
theorem c3_catalog_record_fields_witness :
    ∃ first a, (exRow.select cellSel).head? = some first ∧
      first.selectOne aSel = some a ∧
      (a.attr "href" = none → exRowRec.url = none) ∧
      (∀ u, a.attr "href" = some u → pyStartsWith u "http" = true → exRowRec.url = some u) ∧
      (∀ u, a.attr "href" = some u → u ≠ "" → pyStartsWith u "http" = false →
        exRowRec.url = some (PokebaseScraper.siteOrigin ++ u)) ∧
      (a.attr "href" = some "" → exRowRec.url = some "") ∧
      (∀ raw, (a.selectOne imgSel).bind (fun i => i.attr "src") = some raw → raw ≠ "" →
        exRowRec.img = some (stripQuery raw)) ∧
      ((a.selectOne imgSel).bind (fun i => i.attr "src") = none → exRowRec.img = none) ∧
      ((a.selectOne imgSel).bind (fun i => i.attr "src") = some "" → exRowRec.img = none) ∧
      exRowRec.name = ((a.selectDesc ⟨some "span", ["font-semibold"]⟩
          ⟨some "div", ["truncate"]⟩).head? <|>
        a.selectOne ⟨some "span", ["font-semibold"]⟩).map getTextStrip :=
  c3_catalog_record_fields exRow exRowRec (by decide)

open ScrapPokemonMain in
/-- The orchestrator loop never removes files from the output directory. -/
theorem loop_files_mono (o : Nat → ScrapPokemonMain.EntryOutcome) (x : String) :
    ∀ (items : List ScrapPokemonMain.Item) (idx : Nat) (files : List String)
      (fe s f : Nat), x ∈ files →
      x ∈ (ScrapPokemonMain.loop o idx items files fe s f).files := by
  intro items
  induction items with
  | nil => intro idx files fe s f h; exact h
  | cons it rest ih =>
    intro idx files fe s f h
    simp only [ScrapPokemonMain.loop]
    split
    · exact ih _ _ _ _ _ h
    · split
      · exact ih _ _ _ _ _ h
      · split
        · exact ih _ _ _ _ _ h
        · split
          · exact ih _ _ _ _ _ h
          · exact ih _ _ _ _ _ h
          · exact ih _ _ _ _ _ (List.mem_cons_of_mem _ h)

open ScrapPokemonMain in
/-- After a run whose per-entry outcomes are all `ok` on a catalog of
truthy-url entries, every entry's artifact is in the output directory. -/
theorem loop_ok_writes (o : Nat → ScrapPokemonMain.EntryOutcome)
    (ho : ∀ i, o i = .ok) :
    ∀ (items : List ScrapPokemonMain.Item) (idx : Nat) (files : List String)
      (fe s f : Nat),
      (∀ it ∈ items, it.urlTruthy = true) →
      ∀ it ∈ items, ∀ u, it.url = some u →
        (slugOf u ++ ".json") ∈ (ScrapPokemonMain.loop o idx items files fe s f).files := by
  intro items
  induction items with
  | nil => intro idx files fe s f _ it hit; simp at hit
  | cons it0 rest ih =>
    intro idx files fe s f htruthy it hit u hu
    have htail : ∀ it' ∈ rest, it'.urlTruthy = true :=
      fun it' h' => htruthy it' (List.mem_cons_of_mem _ h')
    rcases List.mem_cons.mp hit with rfl | hmem
    · have hne : u ≠ "" := by
        have hq := htruthy it (List.mem_cons_self _ _)
        unfold ScrapPokemonMain.Item.urlTruthy at hq
        rw [hu] at hq
        simpa using hq
      simp only [ScrapPokemonMain.loop, hu]
      rw [if_neg hne]
      split
      · next hcont =>
        exact loop_files_mono o _ rest _ _ _ _ _ (by simpa using hcont)
      · rw [ho idx]
        exact loop_files_mono o _ rest _ _ _ _ _ (List.mem_cons_self _ _)
    · simp only [ScrapPokemonMain.loop]
      split
      · exact ih _ _ _ _ _ htail it hmem u hu
      · split
        · exact ih _ _ _ _ _ htail it hmem u hu
        · split
          · exact ih _ _ _ _ _ htail it hmem u hu
          · split
            · exact ih _ _ _ _ _ htail it hmem u hu
            · exact ih _ _ _ _ _ htail it hmem u hu
            · exact ih _ _ _ _ _ htail it hmem u hu

open ScrapPokemonMain in
/-- When every truthy-url entry's artifact is already present, a run
invokes the Fetch Engine zero times (the fetch counter never moves). -/
theorem loop_no_fetch (o : Nat → ScrapPokemonMain.EntryOutcome) :
    ∀ (items : List ScrapPokemonMain.Item) (idx : Nat) (files : List String)
      (fe s f : Nat),
      (∀ it ∈ items, it.urlTruthy = true) →
      (∀ it ∈ items, ∀ u, it.url = some u → (slugOf u ++ ".json") ∈ files) →
      (ScrapPokemonMain.loop o idx items files fe s f).fetches = fe := by
  intro items
  induction items with
  | nil => intro idx files fe s f _ _; rfl
  | cons it0 rest ih =>
    intro idx files fe s f htruthy hhave
    have htail : ∀ it' ∈ rest, it'.urlTruthy = true :=
      fun it' h' => htruthy it' (List.mem_cons_of_mem _ h')
    have hhavetail : ∀ it' ∈ rest, ∀ u, it'.url = some u →
        (slugOf u ++ ".json") ∈ files :=
      fun it' h' u hu => hhave it' (List.mem_cons_of_mem _ h') u hu
    have hq := htruthy it0 (List.mem_cons_self _ _)
    unfold ScrapPokemonMain.Item.urlTruthy at hq
    cases hu : it0.url with
    | none => rw [hu] at hq; cases hq
    | some u =>
      rw [hu] at hq
      have hne : u ≠ "" := by simpa using hq
      have hcont : (slugOf u ++ ".json") ∈ files :=
        hhave it0 (List.mem_cons_self _ _) u hu
      simp only [ScrapPokemonMain.loop, hu]
      rw [if_neg hne, if_pos (by simpa using hcont)]
      exact ih _ _ _ _ _ htail hhavetail

open ScrapPokemonMain in
/-- C4 (amended).  The claim as written is false — see the counterexample:
when an entry's fetch fails on the first run no artifact is written, so the
second run fetches it again.  Amended: provided every catalog entry has a
present, non-empty url and every entry processed in the first run succeeds
(artifact written), then after the first run every entry's artifact keyed
by its slug exists, and a second run over the same catalog and output
directory performs zero fetch invocations (every entry is skipped as
already present). -/
theorem c4_rerun_idempotent_after_full_success :
    ∀ (items : List ScrapPokemonMain.Item) (files0 : List String)
      (o1 o2 : Nat → ScrapPokemonMain.EntryOutcome),
      (∀ it ∈ items, it.urlTruthy = true) →
      (∀ i, o1 i = .ok) →
      (∀ it ∈ items, ∀ u, it.url = some u →
        (slugOf u ++ ".json") ∈ (ScrapPokemonMain.runMain o1 items files0).files) ∧
      (ScrapPokemonMain.runMain o2 items
        (ScrapPokemonMain.runMain o1 items files0).files).fetches = 0 := by
  intro items files0 o1 o2 htruthy ho1
  have hw := loop_ok_writes o1 ho1 items 0 files0 0 0 0 htruthy
  exact ⟨hw, loop_no_fetch o2 items 0 _ 0 0 0 htruthy hw⟩

open ScrapPokemonMain in
/-- C4 counterexample: with the one-entry catalog `c4Items` and an empty
output directory, a first run whose fetch fails writes nothing, so the
second run — same catalog, same directory, no entries added or removed —
performs one fetch invocation, not zero. -/
theorem c4_rerun_counterexample :
    (ScrapPokemonMain.runMain (fun _ => .ok) c4Items
      ((ScrapPokemonMain.runMain (fun _ => .fetchFail) c4Items []).files)).fetches = 1 := by
  decide

open ScrapPokemonMain in
/-- C4 witness: a fully successful first run on `c4Items` leaves
`pikachu.json` present and makes the second run fetch-free. -/
theorem c4_rerun_idempotent_witness :
    (∀ it ∈ c4Items, ∀ u, it.url = some u →
      (slugOf u ++ ".json") ∈
        (ScrapPokemonMain.runMain (fun _ => .ok) c4Items []).files) ∧
    (ScrapPokemonMain.runMain (fun _ => .ok) c4Items
      (ScrapPokemonMain.runMain (fun _ => .ok) c4Items []).files).fetches = 0 :=
  c4_rerun_idempotent_after_full_success c4Items [] (fun _ => .ok) (fun _ => .ok)
    (by decide) (fun _ => rfl)

/-- Python dict assignment then lookup: after `d["k"] = v`, `d["k"]` is `v`. -/
theorem objLookup_objSet_self (k : String) (v : JValue) :
    ∀ l, objLookup k (objSet l k v) = some v := by
  intro l
  induction l with
  | nil => simp [objSet, objLookup]
  | cons kv rest ih =>
    obtain ⟨k', v'⟩ := kv
    unfold objSet
    split
    · next h => unfold objLookup; rw [if_pos h]
    · next h => unfold objLookup; rw [if_neg h]; exact ih

/-- The output of `normalize_json` always passes its own case-1 test. -/
theorem isNormalized_normalize_json (v : JValue) (id : String) :
    isNormalized (normalize_json v id) = true := by
  unfold normalize_json
  cases hn : isNormalized v with
  | true => rw [if_pos rfl]; exact hn
  | false =>
    rw [if_neg (by simp)]
    cases v <;> rfl

/-- An already-normalized value is returned unchanged. -/
theorem normalize_json_of_normalized (w : JValue) (id : String)
    (h : isNormalized w = true) : normalize_json w id = w := by
  unfold normalize_json
  rw [if_pos h]

/-- C9.  `normalize_json` always returns a mapping whose `"results"` key
holds a list; in the mapping case (not already normalized) that list is the
flattened category-tagged items, each of which is a mapping carrying a
`"category"` key equal to the source key it came from; and the function is
idempotent — applied to its own output it returns that output unchanged. -/
theorem c9_normalize_json_envelope :
    (∀ v id, ∃ xs, resultsOf (normalize_json v id) = some (.arr xs)) ∧
    (∀ v id id2, normalize_json (normalize_json v id) id2 = normalize_json v id) ∧
    (∀ kvs id, isNormalized (.obj kvs) = false →
      resultsOf (normalize_json (.obj kvs) id) = some (.arr (tagItems kvs))) ∧
    (∀ kvs x, x ∈ tagItems kvs → ∃ k, (∃ v', (k, v') ∈ kvs) ∧
      ∃ kvs2, x = .obj kvs2 ∧ objLookup "category" kvs2 = some (.str k)) := by
  refine ⟨?_, ?_, ?_, ?_⟩
  · intro v id
    unfold normalize_json
    cases hn : isNormalized v with
    | false =>
      rw [if_neg (by simp)]
      cases v <;> exact ⟨_, rfl⟩
    | true =>
      rw [if_pos rfl]
      cases v <;> simp [isNormalized] at hn
      next kvs =>
        cases hl : objLookup "results" kvs with
        | none => rw [hl] at hn; cases hn
        | some w =>
          rw [hl] at hn
          cases w <;> simp at hn
          next xs => exact ⟨xs, by simp [resultsOf, hl]⟩
  · intro v id id2
    exact normalize_json_of_normalized _ _ (isNormalized_normalize_json v id)
  · intro kvs id hn
    unfold normalize_json
    rw [if_neg (by simp [hn])]
    simp [resultsOf, objLookup]
  · intro kvs
    induction kvs with
    | nil => intro x hx; simp [tagItems] at hx
    | cons kv rest ih =>
      obtain ⟨category, v⟩ := kv
      intro x hx
      unfold tagItems at hx
      rw [List.mem_append] at hx
      rcases hx with hx | hx
      · cases v
        case arr items =>
          simp only at hx
          obtain ⟨it, hit, rfl⟩ := List.mem_map.mp hx
          cases it
          case obj kvs' =>
            exact ⟨category, ⟨.arr items, List.mem_cons_self _ _⟩, _, rfl,
              objLookup_objSet_self _ _ kvs'⟩
          all_goals exact ⟨category, ⟨.arr items, List.mem_cons_self _ _⟩, _, rfl, rfl⟩
        all_goals
          simp only [List.mem_singleton] at hx
          subst hx
          exact ⟨category, ⟨_, List.mem_cons_self _ _⟩, _, rfl, rfl⟩
      · obtain ⟨k, ⟨v', hv'⟩, hk⟩ := ih x hx
        exact ⟨k, ⟨v', List.mem_cons_of_mem _ hv'⟩, hk⟩

/-- C9 witness: the mapping-of-lists case applied to a one-category egg
list; the produced item carries the injected category. -/
theorem c9_normalize_json_envelope_witness :
    resultsOf (normalize_json (.obj [("eggs", .arr [.num 1])]) "eggs") =
      some (.arr (tagItems [("eggs", .arr [.num 1])])) ∧
    (∃ k, (∃ v', (k, v') ∈ [("eggs", JValue.arr [.num 1])]) ∧
      ∃ kvs2, JValue.obj [("value", JValue.num 1), ("category", JValue.str "eggs")] =
        .obj kvs2 ∧ objLookup "category" kvs2 = some (.str k)) :=
  ⟨c9_normalize_json_envelope.2.2.1 [("eggs", .arr [.num 1])] "eggs" rfl,
   c9_normalize_json_envelope.2.2.2 [("eggs", .arr [.num 1])]
     (.obj [("value", .num 1), ("category", .str "eggs")]) (List.Mem.head _)⟩
